import Mathlib

/-!
Shallow embedding of the AsmKernelProjection analytical performance estimator.

The repository has three Python modules:
* `src/pa.py`      — attention cycle model, generation B (fixed-issue-cycle variant);
  embedded in namespace `Pa`.
* `src/400/pa.py`  — attention cycle model, generation A (rate-based variant);
  embedded in namespace `Pa400`.
* `src/gemm.py`    — FP8xFP8 GEMM tile model; embedded in namespace `Gemm`.

Python ints and floats are modelled by `ℚ` (all arithmetic in the source is
exact rational arithmetic on the inputs); Python `/` is `ℚ` division, Python
`//` (floor division, on ints and on floats) is `⌊· / ·⌋` cast back to `ℚ`,
and Python `%` on integers with a positive divisor is `Int.emod`.  A Python
`raise` is an `Except.error`.  `print` calls are out of scope (reporting
layer); the values a reporting function computes are modelled as a structure.
-/

namespace Pa

def MMA_THROUGHPUT : ℚ := 16 * 16 * 32 * 2 / 16

def HEAD_SIZE : ℚ := 128

def WARP_SIZE : ℚ := 64

def ISSUE_CYCLES : ℚ := 4

def EXP_ISSUE_CYCLES : ℚ := ISSUE_CYCLES * 4

/-- `gemm` of `src/pa.py`: `ops = qtile * kv_tile * HEAD_SIZE * 2 * 2`,
`cycles = ops / MMA_THROUGHPUT`. -/
def gemm (qtile kv_tile : ℚ) : ℚ :=
  let ops := qtile * kv_tile * HEAD_SIZE * 2 * 2
  ops / MMA_THROUGHPUT

/-- The dictionary returned by `softmax` in `src/pa.py` (seven fixed keys). -/
structure Softmax where
  intra_max : ℚ
  inter_max : ℚ
  softmax_fma_exp : ℚ
  softmax_sum : ℚ
  s_quant : ℚ
  reshape_s : ℚ
  recompute_output : ℚ
deriving DecidableEq

/-- `softmax` of `src/pa.py`. -/
def softmax (qtile kv_tile : ℚ) (is_packed : Bool) : Softmax :=
  let s_elems := (qtile * kv_tile) / WARP_SIZE
  let intra_max := (s_elems / 2) * ISSUE_CYCLES
  let inter_max := 250 + 84 + 112 + (qtile / 16) * 4 / 2
  let fma := if is_packed then s_elems / 2 else s_elems
  let exp := s_elems
  let softmax_fma_exp := fma * ISSUE_CYCLES + exp * EXP_ISSUE_CYCLES
  let softmax_sum := (if is_packed then s_elems / 2 else s_elems) * ISSUE_CYCLES
  let quant_scale := if is_packed then s_elems / 2 else s_elems
  let cvt := if is_packed then s_elems / 2 else s_elems
  let s_quant := quant_scale * ISSUE_CYCLES + cvt * ISSUE_CYCLES * 2
  let reshape_s := s_elems / 4 * 8 + 100 + s_elems / 4 * 32
  let out_elems := (qtile * HEAD_SIZE / 4) / WARP_SIZE
  let recompute_output := (if is_packed then out_elems / 2 else out_elems) * ISSUE_CYCLES
  ⟨intra_max, inter_max, softmax_fma_exp, softmax_sum, s_quant, reshape_s,
    recompute_output⟩

/-- The returned dict of `softmax` in insertion order, as key/value pairs. -/
def Softmax.toList (b : Softmax) : List (String × ℚ) :=
  [("intra_max", b.intra_max),
   ("inter_max", b.inter_max),
   ("softmax_fma_exp", b.softmax_fma_exp),
   ("softmax_sum", b.softmax_sum),
   ("s_quant", b.s_quant),
   ("reshape_s", b.reshape_s),
   ("recompute_output", b.recompute_output)]

/-- Python `sum(metrics.values())`. -/
def Softmax.sumValues (b : Softmax) : ℚ :=
  (b.toList.map Prod.snd).sum

/-- The numeric values computed by `print_performance_table` of `src/pa.py`
(the `print` calls themselves are the out-of-scope reporting layer). -/
structure PerfReport where
  softmax_metrics : Softmax
  gemm_cycles : ℚ
  softmax_total : ℚ
  tot_cycles : ℚ
  tot_cycles_coexe : ℚ
deriving DecidableEq

/-- `print_performance_table` of `src/pa.py`, computation part. -/
def print_performance_table (qtile kv_tile : ℚ) (co_exe : Bool)
    (is_packed : Bool) : PerfReport :=
  let is_packed := if co_exe then false else is_packed
  let softmax_metrics := softmax qtile kv_tile is_packed
  let gemm_cycles := gemm qtile kv_tile
  let softmax_total := softmax_metrics.sumValues
  let tot_cycles := gemm_cycles + softmax_total
  let tot_cycles_coexe := gemm_cycles + (softmax_total - gemm_cycles * 3 / 4) / 2
  ⟨softmax_metrics, gemm_cycles, softmax_total, tot_cycles, tot_cycles_coexe⟩

/-- Python `/` as it can actually fail: `ZeroDivisionError` when the divisor
is zero, modelled as `none`.  Used by the `_checked` variants below, which
re-trace `softmax`/`gemm` with every division routed through this. -/
def pydiv (a b : ℚ) : Option ℚ :=
  if b = 0 then none else some (a / b)

/-- `gemm` of `src/pa.py` with its division checked for `ZeroDivisionError`. -/
def gemm_checked (qtile kv_tile : ℚ) : Option ℚ :=
  pydiv (qtile * kv_tile * HEAD_SIZE * 2 * 2) MMA_THROUGHPUT

/-- `softmax` of `src/pa.py` with every division checked for
`ZeroDivisionError`; a packed-branch division is only evaluated when
`is_packed` is true, as in the source. -/
def softmax_checked (qtile kv_tile : ℚ) (is_packed : Bool) :
    Option Softmax := do
  let s_elems ← pydiv (qtile * kv_tile) WARP_SIZE
  let intra_max := (← pydiv s_elems 2) * ISSUE_CYCLES
  let inter_max := 250 + 84 + 112 + (← pydiv ((← pydiv qtile 16) * 4) 2)
  let fma ← if is_packed then pydiv s_elems 2 else pure s_elems
  let exp := s_elems
  let softmax_fma_exp := fma * ISSUE_CYCLES + exp * EXP_ISSUE_CYCLES
  let softmax_sum := (← if is_packed then pydiv s_elems 2 else pure s_elems) * ISSUE_CYCLES
  let quant_scale ← if is_packed then pydiv s_elems 2 else pure s_elems
  let cvt ← if is_packed then pydiv s_elems 2 else pure s_elems
  let s_quant := quant_scale * ISSUE_CYCLES + cvt * ISSUE_CYCLES * 2
  let reshape_s := (← pydiv s_elems 4) * 8 + 100 + (← pydiv s_elems 4) * 32
  let out_elems ← pydiv (← pydiv (qtile * HEAD_SIZE) 4) WARP_SIZE
  let recompute_output := (← if is_packed then pydiv out_elems 2 else pure out_elems) * ISSUE_CYCLES
  pure ⟨intra_max, inter_max, softmax_fma_exp, softmax_sum, s_quant, reshape_s,
    recompute_output⟩

end Pa

namespace Pa400

def MMA_THROUGHPUT : ℚ := 16 * 16 * 128 * 2 / 8

def HEAD_SIZE : ℚ := 128

def WARP_SIZE : ℚ := 32

def VOP_RATE : ℚ := 1

def DEP_VOP_RATE : ℚ := 5

def TRANS_RATE : ℚ := 2

def DEP_TRANS_RATE : ℚ := 8

/-- `gemm` of `src/400/pa.py`. -/
def gemm (qtile kv_tile : ℚ) : ℚ :=
  let ops := qtile * kv_tile * HEAD_SIZE * 2 * 2
  ops / MMA_THROUGHPUT

/-- The dictionary returned by `softmax` in `src/400/pa.py` (seven fixed keys). -/
structure Softmax where
  dequant : ℚ
  intra_max : ℚ
  inter_max : ℚ
  softmax_fma_exp : ℚ
  softmax_sum : ℚ
  s_quant : ℚ
  recompute_output : ℚ
deriving DecidableEq

/-- `softmax` of `src/400/pa.py`.  (The source assigns `out_elems` twice with
the same expression; the second assignment is the effective one.) -/
def softmax (qtile kv_tile : ℚ) (is_packed : Bool) : Softmax :=
  let s_elems := (qtile * kv_tile) / WARP_SIZE
  let dequant := (if is_packed then s_elems / 2 else s_elems) * VOP_RATE
  let intra_max := (s_elems / 2) * VOP_RATE
  let inter_max := (4 * qtile / 16) * VOP_RATE
  let fma := if is_packed then s_elems / 2 else s_elems
  let exp := s_elems
  let softmax_fma_exp := fma * VOP_RATE + exp * TRANS_RATE
  let softmax_sum := (if is_packed then s_elems / 2 else s_elems) * VOP_RATE
  let quant_scale := if is_packed then s_elems / 2 else s_elems
  let cvt := if is_packed then s_elems / 2 else s_elems
  let s_quant := quant_scale * VOP_RATE + cvt * VOP_RATE
  let out_elems := (qtile * HEAD_SIZE) / WARP_SIZE
  let recompute_output := (if is_packed then out_elems / 2 else out_elems) * 2 * VOP_RATE
  ⟨dequant, intra_max, inter_max, softmax_fma_exp, softmax_sum, s_quant,
    recompute_output⟩

/-- The returned dict of `softmax` in insertion order, as key/value pairs. -/
def Softmax.toList (b : Softmax) : List (String × ℚ) :=
  [("dequant", b.dequant),
   ("intra_max", b.intra_max),
   ("inter_max", b.inter_max),
   ("softmax_fma_exp", b.softmax_fma_exp),
   ("softmax_sum", b.softmax_sum),
   ("s_quant", b.s_quant),
   ("recompute_output", b.recompute_output)]

/-- Python `sum(metrics.values())`. -/
def Softmax.sumValues (b : Softmax) : ℚ :=
  (b.toList.map Prod.snd).sum

/-- The numeric values computed by `print_performance_table` of
`src/400/pa.py` (`tot_cycles_coexe` is computed unconditionally and only
printed when `co_exe` is set; printing is the out-of-scope reporting layer). -/
structure PerfReport where
  softmax_metrics : Softmax
  gemm_cycles : ℚ
  softmax_total : ℚ
  tot_cycles : ℚ
  tot_cycles_coexe : ℚ
deriving DecidableEq

/-- `print_performance_table` of `src/400/pa.py`, computation part. -/
def print_performance_table (qtile kv_tile : ℚ) (co_exe : Bool)
    (is_packed : Bool) : PerfReport :=
  let is_packed := if co_exe then false else is_packed
  let softmax_metrics := softmax qtile kv_tile is_packed
  let gemm_cycles := gemm qtile kv_tile
  let softmax_total := softmax_metrics.sumValues
  let tot_cycles := gemm_cycles + softmax_total
  let tot_cycles_coexe := gemm_cycles + (softmax_total - gemm_cycles * 3 / 4) / 2
  ⟨softmax_metrics, gemm_cycles, softmax_total, tot_cycles, tot_cycles_coexe⟩

/-- `gemm` of `src/400/pa.py` with its division checked for
`ZeroDivisionError` (divisor zero gives `none`). -/
def gemm_checked (qtile kv_tile : ℚ) : Option ℚ :=
  Pa.pydiv (qtile * kv_tile * HEAD_SIZE * 2 * 2) MMA_THROUGHPUT

/-- `softmax` of `src/400/pa.py` with every division checked for
`ZeroDivisionError`. -/
def softmax_checked (qtile kv_tile : ℚ) (is_packed : Bool) :
    Option Softmax := do
  let s_elems ← Pa.pydiv (qtile * kv_tile) WARP_SIZE
  let dequant := (← if is_packed then Pa.pydiv s_elems 2 else pure s_elems) * VOP_RATE
  let intra_max := (← Pa.pydiv s_elems 2) * VOP_RATE
  let inter_max := (← Pa.pydiv (4 * qtile) 16) * VOP_RATE
  let fma ← if is_packed then Pa.pydiv s_elems 2 else pure s_elems
  let exp := s_elems
  let softmax_fma_exp := fma * VOP_RATE + exp * TRANS_RATE
  let softmax_sum := (← if is_packed then Pa.pydiv s_elems 2 else pure s_elems) * VOP_RATE
  let quant_scale ← if is_packed then Pa.pydiv s_elems 2 else pure s_elems
  let cvt ← if is_packed then Pa.pydiv s_elems 2 else pure s_elems
  let s_quant := quant_scale * VOP_RATE + cvt * VOP_RATE
  let out_elems ← Pa.pydiv (qtile * HEAD_SIZE) WARP_SIZE
  let recompute_output := (← if is_packed then Pa.pydiv out_elems 2 else pure out_elems) * 2 * VOP_RATE
  pure ⟨dequant, intra_max, inter_max, softmax_fma_exp, softmax_sum, s_quant,
    recompute_output⟩

end Pa400

namespace Gemm

def BLOCK_SIZE : ℚ := 32

def A_LDS_PAD : ℚ := 16

def LDS_CAP_BYTES : ℚ := 320 * 1024

def LDS_BYTES_PER_CYCLE : ℚ := 128

def F8_MFMA_THROUGHPUT : ℚ := 16 * 16 * 128 / 8

/-- `TileConfig` dataclass of `src/gemm.py`. -/
structure TileConfig where
  m : ℤ
  n : ℤ
  k : ℤ
deriving DecidableEq

/-- The `name` property: `f"{m}x{n}x{k}"`. -/
def TileConfig.name (c : TileConfig) : String :=
  toString c.m ++ "x" ++ toString c.n ++ "x" ++ toString c.k

/-- The `ValueError` message raised by `_require_divisible` in
`src/gemm.py`. -/
def divisibility_msg (x d : ℤ) (what : String) : String :=
  what ++ " must be divisible by " ++ toString d ++ ", got " ++ toString x

/-- `_require_divisible` of `src/gemm.py`: raises `ValueError` when
`x % d != 0`. -/
def _require_divisible (x d : ℤ) (what : String) : Except String Unit :=
  if x % d ≠ 0 then
    Except.error (divisibility_msg x d what)
  else
    Except.ok ()

/-- The dictionary returned by `fp8fp8_tile_metrics` (twenty fixed keys; all
values numeric, modelled uniformly as `ℚ`). -/
structure Metrics where
  tilem : ℚ
  tilen : ℚ
  tilek : ℚ
  compute_cycles : ℚ
  a_lds : ℚ
  b_lds : ℚ
  scale : ℚ
  total_lds : ℚ
  lds_a_inst : ℚ
  lds_b_inst : ℚ
  lds_scale_inst : ℚ
  max_lds_stage : ℚ
  wave_lds_latency_time : ℚ
  tdm_a : ℚ
  tdm_b : ℚ
  tdm_issue_time : ℚ
  acc_reg : ℚ
  a_regs : ℚ
  b_regs : ℚ
  reg_per_msb : ℚ
deriving DecidableEq

/-- Body of `fp8fp8_tile_metrics` of `src/gemm.py` after its two divisibility
checks (factored out so theorems can name the computed metrics).  Python `//`
(floor division) is `⌊· / ·⌋`.  Every division here divides by a nonzero
constant except `LDS_CAP_BYTES / total_lds` (the `max lds stage` entry),
whose divisor is computed: the `ZeroDivisionError` Python raises there when
`total_lds = 0` is modelled by the guard in `fp8fp8_tile_metrics`, so the
total `ℚ` division below is only reached with `total_lds ≠ 0`. -/
def metricsD (tile_m tile_n tile_k : ℤ) : Metrics :=
  let m : ℚ := tile_m
  let n : ℚ := tile_n
  let k : ℚ := tile_k
  let a_lds := m * (k + A_LDS_PAD)
  let b_lds := k * n
  let a_scale : ℚ := (⌊m * k / BLOCK_SIZE⌋ : ℤ)
  let b_scale : ℚ := (⌊n * k / BLOCK_SIZE⌋ : ℤ)
  let scale := a_scale + b_scale
  let total_lds := a_lds + b_lds + scale
  let compute_cycles := m * n * k / 4 / F8_MFMA_THROUGHPUT
  let tdm_a := m
  let tdm_b : ℚ := (⌊n * k / 256⌋ : ℤ)
  let tdm_issue_time := tdm_a + tdm_b
  let lds_a_inst : ℚ := (⌊m * k / 512⌋ : ℤ)
  let lds_b_inst : ℚ := (⌊n / 4 * k / 512⌋ : ℤ)
  let lds_scale_inst : ℚ := (⌊(m * k / 32 + n * k / 4 / 32) / 128⌋ : ℤ)
  let lds_1x4 := a_lds + ((⌊b_lds / 4⌋ : ℤ) : ℚ)
  let lds_1x4_time := lds_1x4 / LDS_BYTES_PER_CYCLE
  let acc_reg := m * n / 4 / 16 / 16 * 8
  let a_regs := m * k / 16 / 128 * 16
  let b_regs := n / 4 * k / 16 / 128 * 16
  let reg_per_msb := acc_reg / 4 + max a_regs b_regs / 2
  { tilem := m
    tilen := n
    tilek := k
    compute_cycles := compute_cycles
    a_lds := a_lds
    b_lds := b_lds
    scale := scale
    total_lds := total_lds
    lds_a_inst := lds_a_inst
    lds_b_inst := lds_b_inst
    lds_scale_inst := lds_scale_inst
    max_lds_stage := LDS_CAP_BYTES / total_lds
    wave_lds_latency_time := lds_1x4_time
    tdm_a := tdm_a
    tdm_b := tdm_b
    tdm_issue_time := tdm_issue_time
    acc_reg := acc_reg
    a_regs := a_regs
    b_regs := b_regs
    reg_per_msb := reg_per_msb }

/-- `fp8fp8_tile_metrics` of `src/gemm.py`: the two divisibility checks,
then the metric computation.  Building the returned dict evaluates
`LDS_CAP_BYTES / total_lds`; when `total_lds = 0` (e.g. at
`(tile_m, tile_n, tile_k) = (0, 16, 0)`, which passes both divisibility
checks) Python raises `ZeroDivisionError`, modelled here by the explicit
guard. -/
def fp8fp8_tile_metrics (tile_m tile_n tile_k : ℤ) : Except String Metrics := do
  _require_divisible tile_k 32 "tile_k"
  _require_divisible tile_n 16 "tile_n"
  if (metricsD tile_m tile_n tile_k).total_lds = 0 then
    Except.error "division by zero"
  else
    pure (metricsD tile_m tile_n tile_k)

/-- The returned dict of `fp8fp8_tile_metrics` in insertion order, with the
source's string keys. -/
def Metrics.toList (mt : Metrics) : List (String × ℚ) :=
  [("tilem", mt.tilem),
   ("tilen", mt.tilen),
   ("tilek", mt.tilek),
   ("compute cycles", mt.compute_cycles),
   ("A lds", mt.a_lds),
   ("B lds", mt.b_lds),
   ("scale", mt.scale),
   ("Total lds", mt.total_lds),
   ("lds a inst", mt.lds_a_inst),
   ("lds b inst", mt.lds_b_inst),
   ("lds scale inst", mt.lds_scale_inst),
   ("max lds stage", mt.max_lds_stage),
   ("wave lds latency time", mt.wave_lds_latency_time),
   ("TDM A", mt.tdm_a),
   ("TDM B", mt.tdm_b),
   ("TDM issue time", mt.tdm_issue_time),
   ("acc reg", mt.acc_reg),
   ("a regs", mt.a_regs),
   ("b regs", mt.b_regs),
   ("reg per msb", mt.reg_per_msb)]

/-- Python `dict.get(row)`: `some` value when present, `none` otherwise. -/
def Metrics.get (mt : Metrics) (row : String) : Option ℚ :=
  mt.toList.lookup row

/-- `row_order` list of `fp8fp8_table` in `src/gemm.py`. -/
def row_order : List String :=
  ["tilem", "tilen", "tilek",
   "compute cycles",
   "A lds", "B lds", "scale", "Total lds",
   "lds a inst", "lds b inst", "lds scale inst",
   "max lds stage", "wave lds latency time",
   "TDM A", "TDM B", "TDM issue time",
   "acc reg", "a regs", "b regs", "reg per msb"]

/-- `fp8fp8_table` of `src/gemm.py`: per-config metrics keyed by config name,
reorganised as rows-by-configs.  (The optional pandas rendering at the end is
display-only: on any import failure the source returns the plain `table`
mapping, which is what is modelled.)  A `ValueError` from
`fp8fp8_tile_metrics` propagates. -/
def fp8fp8_table (configs : List TileConfig) :
    Except String (List (String × List (String × Option ℚ))) := do
  let cols ← configs.mapM (fun cfg => do
    let mt ← fp8fp8_tile_metrics cfg.m cfg.n cfg.k
    pure (cfg.name, mt))
  pure (row_order.map (fun row =>
    (row, cols.map (fun c => (c.1, c.2.get row)))))

end Gemm

/-- C1: for every query tile, key/value tile and flag setting, in both
hardware-generation variants, the pipeline's total cycles equals
`gemm_cycles(q, kv)` plus the sum of the values of the softmax breakdown it
computed, and its co-execution total equals
`gemm_cycles + (sum(breakdown.values()) - 0.75*gemm_cycles)/2`, exactly —
in particular the co-execution total is not clamped to any floor. -/
theorem attention_totals_formula (q kv : ℚ) (co_exe is_packed : Bool) :
    ((Pa.print_performance_table q kv co_exe is_packed).tot_cycles =
        Pa.gemm q kv +
          (Pa.print_performance_table q kv co_exe is_packed).softmax_metrics.sumValues ∧
      (Pa.print_performance_table q kv co_exe is_packed).tot_cycles_coexe =
        Pa.gemm q kv +
          ((Pa.print_performance_table q kv co_exe is_packed).softmax_metrics.sumValues -
            Pa.gemm q kv * 3 / 4) / 2) ∧
    ((Pa400.print_performance_table q kv co_exe is_packed).tot_cycles =
        Pa400.gemm q kv +
          (Pa400.print_performance_table q kv co_exe is_packed).softmax_metrics.sumValues ∧
      (Pa400.print_performance_table q kv co_exe is_packed).tot_cycles_coexe =
        Pa400.gemm q kv +
          ((Pa400.print_performance_table q kv co_exe is_packed).softmax_metrics.sumValues -
            Pa400.gemm q kv * 3 / 4) / 2) :=
  ⟨⟨rfl, rfl⟩, ⟨rfl, rfl⟩⟩

/-- C3 counterexample: the claim asserts that generation B (`src/pa.py`)
lacks the packed-off-under-co-execution override, i.e. that some `(q, kv)`
gives different reports for `is_packed = true` versus `false` under
co-execution.  No such input exists: `print_performance_table` in
`src/pa.py` also forces `is_packed` to `false` when `co_exe` is set. -/
theorem gen_b_packed_override_counterexample :
    ¬ ∃ q kv : ℚ,
      Pa.print_performance_table q kv true true ≠
        Pa.print_performance_table q kv true false :=
  fun ⟨_, _, h⟩ => h rfl

/-- C3 amended: generation B (`src/pa.py`) has the same override as
generation A: under co-execution `is_packed` is forced off, so for every
`q` and `kv` the pipeline yields identical breakdown and totals for
`is_packed = true` and `is_packed = false`. -/
theorem gen_b_packed_forced_off_under_coexec (q kv : ℚ) :
    Pa.print_performance_table q kv true true =
      Pa.print_performance_table q kv true false :=
  rfl

/-- C4: in the generation-A model (`src/400/pa.py`), invoking the pipeline
with `is_packed = true` under co-execution produces exactly the same
breakdown and totals as with `is_packed = false`: packed mode is forced off
under co-execution. -/
theorem gen_a_packed_forced_off_under_coexec (q kv : ℚ) :
    Pa400.print_performance_table q kv true true =
      Pa400.print_performance_table q kv true false :=
  rfl

/-- C10: for every input, each generation's softmax returns a breakdown with
exactly seven fixed string keys in a fixed order, independent of the input
values: generation A (`src/400/pa.py`) `dequant`, `intra_max`, `inter_max`,
`softmax_fma_exp`, `softmax_sum`, `s_quant`, `recompute_output`; generation B
(`src/pa.py`) `intra_max`, `inter_max`, `softmax_fma_exp`, `softmax_sum`,
`s_quant`, `reshape_s`, `recompute_output`. -/
theorem softmax_breakdown_keys_fixed (q kv : ℚ) (is_packed : Bool) :
    (Pa400.softmax q kv is_packed).toList.map Prod.fst =
        ["dequant", "intra_max", "inter_max", "softmax_fma_exp",
         "softmax_sum", "s_quant", "recompute_output"] ∧
      (Pa.softmax q kv is_packed).toList.map Prod.fst =
        ["intra_max", "inter_max", "softmax_fma_exp", "softmax_sum",
         "s_quant", "reshape_s", "recompute_output"] :=
  ⟨rfl, rfl⟩

/-- C8: passing an empty sequence of tile configs to the table builder
returns the empty table — every row of `row_order` is present but carries no
per-config entries — and does not fail. -/
theorem empty_configs_empty_table :
    Gemm.fp8fp8_table [] =
      Except.ok (Gemm.row_order.map (fun row => (row, []))) :=
  rfl

/-- C9: `fp8fp8_tile_metrics` checks only the two divisibility constraints
and performs no positivity check: `tile_m = 0` with `tile_n = 256`,
`tile_k = 128` passes the checks and yields a metrics mapping with a zero
`A lds` footprint, and `tile_m = -64` likewise yields a negative `A lds`
footprint, instead of an error. -/
theorem gemm_tile_metrics_no_positivity_check :
    (Gemm.fp8fp8_tile_metrics 0 256 128 = Except.ok (Gemm.metricsD 0 256 128) ∧
      (Gemm.metricsD 0 256 128).a_lds = 0) ∧
    (Gemm.fp8fp8_tile_metrics (-64) 256 128 =
        Except.ok (Gemm.metricsD (-64) 256 128) ∧
      (Gemm.metricsD (-64) 256 128).a_lds = -9216 ∧
      (Gemm.metricsD (-64) 256 128).a_lds < 0) := by
  have e0 : Gemm.fp8fp8_tile_metrics 0 256 128 =
      Except.ok (Gemm.metricsD 0 256 128) := by
    unfold Gemm.fp8fp8_tile_metrics Gemm._require_divisible
    rw [if_neg (by decide), if_neg (by decide),
      if_neg (by norm_num [Gemm.metricsD, Gemm.BLOCK_SIZE, Gemm.A_LDS_PAD])]
    rfl
  have e1 : Gemm.fp8fp8_tile_metrics (-64) 256 128 =
      Except.ok (Gemm.metricsD (-64) 256 128) := by
    unfold Gemm.fp8fp8_tile_metrics Gemm._require_divisible
    rw [if_neg (by decide), if_neg (by decide),
      if_neg (by norm_num [Gemm.metricsD, Gemm.BLOCK_SIZE, Gemm.A_LDS_PAD])]
    rfl
  refine ⟨⟨e0, ?_⟩, e1, ?_, ?_⟩ <;> norm_num [Gemm.metricsD, Gemm.A_LDS_PAD]

/-- C2: whenever `tile_k % 32 ≠ 0` or `tile_n % 16 ≠ 0`,
`fp8fp8_tile_metrics` fails with exactly the configuration error of the
violated divisibility check — the result is that error and nothing else, so
no metric is computed and no partial result is produced — and for all other
inputs the divisibility checks themselves do not raise (they both return
`ok`; the function may still raise `ZeroDivisionError` later when
`total_lds = 0`, which is a different error from a different place). -/
theorem gemm_tile_metrics_divisibility_check (tile_m tile_n tile_k : ℤ) :
    (tile_k % 32 ≠ 0 →
      Gemm.fp8fp8_tile_metrics tile_m tile_n tile_k =
        Except.error (Gemm.divisibility_msg tile_k 32 "tile_k")) ∧
    (tile_k % 32 = 0 → tile_n % 16 ≠ 0 →
      Gemm.fp8fp8_tile_metrics tile_m tile_n tile_k =
        Except.error (Gemm.divisibility_msg tile_n 16 "tile_n")) ∧
    (tile_k % 32 = 0 ∧ tile_n % 16 = 0 ↔
      Gemm._require_divisible tile_k 32 "tile_k" = Except.ok () ∧
      Gemm._require_divisible tile_n 16 "tile_n" = Except.ok ()) := by
  refine ⟨fun h1 => ?_, fun h1 h2 => ?_, ?_⟩
  · unfold Gemm.fp8fp8_tile_metrics Gemm._require_divisible
    rw [if_pos h1]
    rfl
  · unfold Gemm.fp8fp8_tile_metrics Gemm._require_divisible
    rw [if_neg (by simp [h1]), if_pos h2]
    rfl
  · by_cases h1 : tile_k % 32 = 0 <;> by_cases h2 : tile_n % 16 = 0 <;>
      simp [Gemm._require_divisible, h1, h2]

theorem gemm_tile_metrics_divisibility_check_witness :
    ((5:ℤ) % 32 ≠ 0 ∧
      Gemm.fp8fp8_tile_metrics 64 256 5 =
        Except.error (Gemm.divisibility_msg 5 32 "tile_k")) ∧
    ((128:ℤ) % 32 = 0 ∧ (250:ℤ) % 16 ≠ 0 ∧
      Gemm.fp8fp8_tile_metrics 64 250 128 =
        Except.error (Gemm.divisibility_msg 250 16 "tile_n")) ∧
    ((128:ℤ) % 32 = 0 ∧ (256:ℤ) % 16 = 0 ∧
      Gemm._require_divisible 128 32 "tile_k" = Except.ok () ∧
      Gemm._require_divisible 256 16 "tile_n" = Except.ok ()) :=
  ⟨⟨by decide, (gemm_tile_metrics_divisibility_check 64 256 5).1 (by decide)⟩,
   ⟨by decide, by decide,
     (gemm_tile_metrics_divisibility_check 64 250 128).2.1 (by decide) (by decide)⟩,
   by decide, by decide,
   (gemm_tile_metrics_divisibility_check 64 256 128).2.2.mp ⟨by decide, by decide⟩⟩

/-- C5: for every valid GEMM tile config — positive dimensions with
`tile_k` divisible by 32 and `tile_n` divisible by 16 — the metrics satisfy
`total_lds = a_lds + b_lds + scale` and
`max_lds_stage = LDS_CAP_BYTES / total_lds` exactly (exact `ℚ` equality,
which implies equality within any relative floating-point tolerance). -/
theorem gemm_tile_metrics_lds_identities (tile_m tile_n tile_k : ℤ)
    (hm : 0 < tile_m) (hn : 0 < tile_n) (hk : 0 < tile_k)
    (h1 : tile_k % 32 = 0) (h2 : tile_n % 16 = 0) :
    Gemm.fp8fp8_tile_metrics tile_m tile_n tile_k =
        Except.ok (Gemm.metricsD tile_m tile_n tile_k) ∧
      (Gemm.metricsD tile_m tile_n tile_k).total_lds =
        (Gemm.metricsD tile_m tile_n tile_k).a_lds +
          (Gemm.metricsD tile_m tile_n tile_k).b_lds +
          (Gemm.metricsD tile_m tile_n tile_k).scale ∧
      (Gemm.metricsD tile_m tile_n tile_k).max_lds_stage =
        Gemm.LDS_CAP_BYTES / (Gemm.metricsD tile_m tile_n tile_k).total_lds := by
  have hm' : (0:ℚ) < (tile_m : ℚ) := by exact_mod_cast hm
  have hn' : (0:ℚ) < (tile_n : ℚ) := by exact_mod_cast hn
  have hk' : (0:ℚ) < (tile_k : ℚ) := by exact_mod_cast hk
  have hf1 : (0:ℚ) ≤ ((⌊(tile_m:ℚ) * (tile_k:ℚ) / Gemm.BLOCK_SIZE⌋ : ℤ) : ℚ) := by
    have hx : (0:ℚ) ≤ (tile_m:ℚ) * (tile_k:ℚ) / Gemm.BLOCK_SIZE :=
      div_nonneg (mul_nonneg hm'.le hk'.le) (by norm_num [Gemm.BLOCK_SIZE])
    exact_mod_cast Int.floor_nonneg.mpr hx
  have hf2 : (0:ℚ) ≤ ((⌊(tile_n:ℚ) * (tile_k:ℚ) / Gemm.BLOCK_SIZE⌋ : ℤ) : ℚ) := by
    have hx : (0:ℚ) ≤ (tile_n:ℚ) * (tile_k:ℚ) / Gemm.BLOCK_SIZE :=
      div_nonneg (mul_nonneg hn'.le hk'.le) (by norm_num [Gemm.BLOCK_SIZE])
    exact_mod_cast Int.floor_nonneg.mpr hx
  have hpad : (0:ℚ) < (tile_k:ℚ) + Gemm.A_LDS_PAD := by
    have e : Gemm.A_LDS_PAD = (16:ℚ) := rfl
    rw [e]; linarith
  have htot : ¬ (Gemm.metricsD tile_m tile_n tile_k).total_lds = 0 := by
    have hpos : 0 < (Gemm.metricsD tile_m tile_n tile_k).total_lds := by
      simp only [Gemm.metricsD]
      linarith [mul_pos hm' hpad, mul_pos hk' hn', hf1, hf2]
    exact ne_of_gt hpos
  refine ⟨?_, rfl, rfl⟩
  unfold Gemm.fp8fp8_tile_metrics Gemm._require_divisible
  rw [if_neg (by simp [h1]), if_neg (by simp [h2]), if_neg htot]
  rfl

theorem gemm_tile_metrics_lds_identities_witness :
    (0:ℤ) < 64 ∧ (0:ℤ) < 256 ∧ (0:ℤ) < 128 ∧
      (128:ℤ) % 32 = 0 ∧ (256:ℤ) % 16 = 0 ∧
      (Gemm.fp8fp8_tile_metrics 64 256 128 =
          Except.ok (Gemm.metricsD 64 256 128) ∧
        (Gemm.metricsD 64 256 128).total_lds =
          (Gemm.metricsD 64 256 128).a_lds + (Gemm.metricsD 64 256 128).b_lds +
            (Gemm.metricsD 64 256 128).scale ∧
        (Gemm.metricsD 64 256 128).max_lds_stage =
          Gemm.LDS_CAP_BYTES / (Gemm.metricsD 64 256 128).total_lds) :=
  ⟨by decide, by decide, by decide, by decide, by decide,
    gemm_tile_metrics_lds_identities 64 256 128 (by decide) (by decide)
      (by decide) (by decide) (by decide)⟩

/-- C7: for fixed positive `kv_tile`, the attention GEMM cycle cost is
monotone in the query tile in both hardware-generation variants. -/
theorem gemm_cycles_monotone_in_qtile (q1 q2 kv : ℚ) (hkv : 0 < kv)
    (h : q1 ≤ q2) :
    Pa.gemm q1 kv ≤ Pa.gemm q2 kv ∧ Pa400.gemm q1 kv ≤ Pa400.gemm q2 kv := by
  have key : q1 * kv ≤ q2 * kv := mul_le_mul_of_nonneg_right h hkv.le
  constructor <;>
    simp only [Pa.gemm, Pa400.gemm, Pa.HEAD_SIZE, Pa400.HEAD_SIZE,
      Pa.MMA_THROUGHPUT, Pa400.MMA_THROUGHPUT] <;>
    nlinarith [key]

theorem gemm_cycles_monotone_in_qtile_witness :
    (0:ℚ) < 128 ∧ (16:ℚ) ≤ 32 ∧
      (Pa.gemm 16 128 ≤ Pa.gemm 32 128 ∧
        Pa400.gemm 16 128 ≤ Pa400.gemm 32 128) :=
  ⟨by norm_num, by norm_num,
    gemm_cycles_monotone_in_qtile 16 32 128 (by norm_num) (by norm_num)⟩

theorem softmax_checked_spec_b (q kv : ℚ) (p : Bool) :
    Pa.softmax_checked q kv p = some (Pa.softmax q kv p) := by
  cases p <;>
    norm_num [Pa.softmax_checked, Pa.softmax, Pa.pydiv, Pa.WARP_SIZE,
      Pa.ISSUE_CYCLES, Pa.EXP_ISSUE_CYCLES, Pa.HEAD_SIZE, Option.bind]

theorem gemm_checked_spec_b (q kv : ℚ) :
    Pa.gemm_checked q kv = some (Pa.gemm q kv) := by
  norm_num [Pa.gemm_checked, Pa.gemm, Pa.pydiv, Pa.MMA_THROUGHPUT,
    Pa.HEAD_SIZE]

theorem softmax_checked_spec_a (q kv : ℚ) (p : Bool) :
    Pa400.softmax_checked q kv p = some (Pa400.softmax q kv p) := by
  cases p <;>
    norm_num [Pa400.softmax_checked, Pa400.softmax, Pa.pydiv, Pa400.WARP_SIZE,
      Pa400.VOP_RATE, Pa400.TRANS_RATE, Pa400.HEAD_SIZE, Option.bind]

theorem gemm_checked_spec_a (q kv : ℚ) :
    Pa400.gemm_checked q kv = some (Pa400.gemm q kv) := by
  norm_num [Pa400.gemm_checked, Pa400.gemm, Pa.pydiv, Pa400.MMA_THROUGHPUT,
    Pa400.HEAD_SIZE]

/-- C6 counterexample: the claim says the results at non-positive tile
dimensions are mathematically degenerate (zero or negative); but at the
non-positive inputs `q = 0, kv = 0` generation B's `inter_max` is `446 > 0`
(fixed communication latencies), and at `q = -1, kv = -1` generation A's
`dequant` and generation B's `gemm` are strictly positive. -/
theorem attention_nonpositive_results_counterexample :
    ((0:ℚ) ≤ 0 ∧ ¬ (Pa.softmax 0 0 false).inter_max ≤ 0) ∧
      ((-1:ℚ) ≤ 0 ∧ ¬ (Pa400.softmax (-1) (-1) false).dequant ≤ 0 ∧
        ¬ Pa.gemm (-1) (-1) ≤ 0) := by
  norm_num [Pa.softmax, Pa400.softmax, Pa.gemm, Pa.WARP_SIZE, Pa400.WARP_SIZE,
    Pa.ISSUE_CYCLES, Pa400.VOP_RATE, Pa.HEAD_SIZE, Pa.MMA_THROUGHPUT]

/-- C6 amended: for every non-positive (zero or negative) `query_tile` or
`kv_tile`, the attention model in both generations does not raise: every
division succeeds (checked evaluation returns `some`, i.e. numeric results,
with no validation performed), and the results can be mathematically
degenerate — whenever the product `q * kv` is non-positive, the GEMM cycles
and every `s_elems`-scaled breakdown component (generation A's `dequant`,
and both generations' `intra_max`, `softmax_fma_exp`, `softmax_sum`,
`s_quant`) are zero or negative — rather than an error; fixed-latency
components may remain positive. -/
theorem attention_nonpositive_inputs_degenerate (q kv : ℚ) (p : Bool)
    (h : q ≤ 0 ∨ kv ≤ 0) :
    (Pa.softmax_checked q kv p = some (Pa.softmax q kv p) ∧
      Pa.gemm_checked q kv = some (Pa.gemm q kv) ∧
      Pa400.softmax_checked q kv p = some (Pa400.softmax q kv p) ∧
      Pa400.gemm_checked q kv = some (Pa400.gemm q kv)) ∧
    (q * kv ≤ 0 →
      Pa.gemm q kv ≤ 0 ∧ Pa400.gemm q kv ≤ 0 ∧
      (Pa.softmax q kv p).intra_max ≤ 0 ∧
      (Pa.softmax q kv p).softmax_fma_exp ≤ 0 ∧
      (Pa.softmax q kv p).softmax_sum ≤ 0 ∧
      (Pa.softmax q kv p).s_quant ≤ 0 ∧
      (Pa400.softmax q kv p).dequant ≤ 0 ∧
      (Pa400.softmax q kv p).intra_max ≤ 0 ∧
      (Pa400.softmax q kv p).softmax_fma_exp ≤ 0 ∧
      (Pa400.softmax q kv p).softmax_sum ≤ 0 ∧
      (Pa400.softmax q kv p).s_quant ≤ 0) := by
  refine ⟨⟨softmax_checked_spec_b q kv p, gemm_checked_spec_b q kv,
    softmax_checked_spec_a q kv p, gemm_checked_spec_a q kv⟩, fun hqk => ?_⟩
  cases p <;>
    refine ⟨?_, ?_, ?_, ?_, ?_, ?_, ?_, ?_, ?_, ?_, ?_⟩ <;>
      simp only [Pa.gemm, Pa400.gemm, Pa.softmax, Pa400.softmax, Pa.HEAD_SIZE,
        Pa400.HEAD_SIZE, Pa.MMA_THROUGHPUT, Pa400.MMA_THROUGHPUT, Pa.WARP_SIZE,
        Pa400.WARP_SIZE, Pa.ISSUE_CYCLES, Pa.EXP_ISSUE_CYCLES, Pa400.VOP_RATE,
        Pa400.TRANS_RATE, Bool.false_eq_true, if_false, if_true, ite_true,
        ite_false] <;>
      nlinarith [hqk]

theorem attention_nonpositive_inputs_degenerate_witness :
    ((-1:ℚ) ≤ 0 ∨ (2:ℚ) ≤ 0) ∧
      ((Pa.softmax_checked (-1) 2 false = some (Pa.softmax (-1) 2 false) ∧
        Pa.gemm_checked (-1) 2 = some (Pa.gemm (-1) 2) ∧
        Pa400.softmax_checked (-1) 2 false = some (Pa400.softmax (-1) 2 false) ∧
        Pa400.gemm_checked (-1) 2 = some (Pa400.gemm (-1) 2)) ∧
      ((-1:ℚ) * 2 ≤ 0 →
        Pa.gemm (-1) 2 ≤ 0 ∧ Pa400.gemm (-1) 2 ≤ 0 ∧
        (Pa.softmax (-1) 2 false).intra_max ≤ 0 ∧
        (Pa.softmax (-1) 2 false).softmax_fma_exp ≤ 0 ∧
        (Pa.softmax (-1) 2 false).softmax_sum ≤ 0 ∧
        (Pa.softmax (-1) 2 false).s_quant ≤ 0 ∧
        (Pa400.softmax (-1) 2 false).dequant ≤ 0 ∧
        (Pa400.softmax (-1) 2 false).intra_max ≤ 0 ∧
        (Pa400.softmax (-1) 2 false).softmax_fma_exp ≤ 0 ∧
        (Pa400.softmax (-1) 2 false).softmax_sum ≤ 0 ∧
        (Pa400.softmax (-1) 2 false).s_quant ≤ 0)) :=
  ⟨Or.inl (by norm_num),
    attention_nonpositive_inputs_degenerate (-1) 2 false (Or.inl (by norm_num))⟩
